import Mathlib

/-!
Verification development for the certificate trust-lifecycle manager of
the shippingmanager_alliance_chat repository (src/helper/certificate_manager.py).

The Python functions are shallowly embedded as pure Lean functions.
External effects (subprocess runs, the Windows trust store, elevation
prompts, dialogs, the generated batch script) are made explicit:
a query is an input value describing the outcome of the underlying
command, the Windows trust store is a list of entries, dialogs are a
trace of titles, and the scratch batch-script lifecycle is a trace of
create / exec / unlink events.
-/

/-- Whether `pat` occurs as a contiguous sublist of `s`. -/
def listInfix (pat : List Char) : List Char → Bool
  | [] => pat.isEmpty
  | c :: rest => pat.isPrefixOf (c :: rest) || listInfix pat rest

/-- Python `pat in s` (substring test). -/
def containsStr (s pat : String) : Bool :=
  listInfix pat.toList s.toList

/-- Python `s.startswith(pre)`. -/
def startsWithStr (s pre : String) : Bool :=
  pre.toList.isPrefixOf s.toList

/-- Python `s.strip()` over ASCII whitespace. -/
def pyStrip (s : String) : String :=
  String.mk (((s.toList.dropWhile Char.isWhitespace).reverse.dropWhile Char.isWhitespace).reverse)

/-- The double-quote character. -/
def dquote : Char := Char.ofNat 34

/-- The single-quote character. -/
def squote : Char := Char.ofNat 39

/-- Python `s.strip(QUOTE)`: drop double quotes from both ends. -/
def stripQuotes (s : String) : String :=
  String.mk (((s.toList.dropWhile (· == dquote)).reverse.dropWhile (· == dquote)).reverse)

/-- Characters after the first occurrence of `pat`; `[]` when `pat` does not occur.
Models Python `s.split(pat, 1)[1]` under the guard that `pat` occurs in `s`. -/
def afterFirstAux (pat : List Char) : List Char → List Char
  | [] => []
  | c :: rest =>
    if pat.isPrefixOf (c :: rest) then List.drop pat.length (c :: rest)
    else afterFirstAux pat rest

/-- String form of `afterFirstAux`. -/
def afterFirstStr (pat s : String) : String :=
  String.mk (afterFirstAux pat.toList s.toList)

/-- Characters before the first occurrence of `pat` (all of them when `pat`
does not occur). -/
def upToFirst (pat : List Char) : List Char → List Char
  | [] => []
  | c :: rest =>
    if pat.isPrefixOf (c :: rest) then []
    else c :: upToFirst pat rest

/-- Python `s.split(pat)[1]` for a `pat` that occurs in `s`: the segment
between the first occurrence of `pat` and the following occurrence (or the
end of the string). -/
def splitSecond (pat s : String) : String :=
  String.mk (upToFirst pat.toList (afterFirstAux pat.toList s.toList))

/-- Outcome of one underlying platform query (`subprocess.run` of certutil /
security): either the call raised (timeout, missing tool, launch failure),
or it completed with a return code and stdout lines. -/
inductive QueryOutcome where
  | raised
  | completed (returncode : Int) (stdoutLines : List String)
deriving DecidableEq

/- ------------------------------------------------------------------
Detection: get_all_installed_certificates (lines 219-280) and
is_certificate_installed (lines 174-217).
------------------------------------------------------------------ -/

/-- Line 243 and line 614: a listing line mentions one of our Common Names
(current or legacy). -/
def subjectMatches (line : String) : Bool :=
  containsStr line "CN=Shipping Manager CoPilot CA" ||
    containsStr line "CN=Shipping Manager Chat CA"

/-- Line 246: `line.split(COLON, 1)[1].strip()`. -/
def extractSubject (line : String) : String :=
  pyStrip (afterFirstStr ":" line)

/-- Lines 241-249: scan certutil `-store Root` output, collect the subject of
every line whose CN matches, skipping duplicates. -/
def winCollectSubjects : List String → List String → List String
  | [], acc => acc
  | line :: rest, acc =>
    if subjectMatches line then
      if containsStr line ":" then
        let subject := extractSubject line
        if subject ∈ acc then winCollectSubjects rest acc
        else winCollectSubjects rest (acc ++ [subject])
      else winCollectSubjects rest acc
    else winCollectSubjects rest acc

/-- Windows branch of get_all_installed_certificates (lines 230-249):
on a raised query or nonzero return code the except/guard paths leave the
collected list empty. -/
def get_all_installed_certificates_windows : QueryOutcome → List String
  | .raised => []
  | .completed rc lines => if rc = 0 then winCollectSubjects lines [] else []

/-- The label separator `"labl"<blob>=` used at lines 264-266. -/
def lablSep : String := "\"labl\"<blob>="

/-- Line 266: `line.split(LABLSEP)[1].strip().strip(QUOTE)`. -/
def macExtractLabel (line : String) : String :=
  stripQuotes (pyStrip (splitSecond lablSep line))

/-- One step of the macOS collection loop (lines 263-268). -/
def macStep (acc : List String) (line : String) : List String :=
  if containsStr line lablSep then
    let label := macExtractLabel line
    if containsStr label "Shipping Manager CoPilot" then acc ++ [label] else acc
  else acc

/-- macOS branch of get_all_installed_certificates (lines 251-268). -/
def get_all_installed_certificates_darwin : QueryOutcome → List String
  | .raised => []
  | .completed rc lines => if rc = 0 then lines.foldl macStep [] else []

/-- Greedy sequential substring matcher: each pattern must occur, in order,
after the previous one. Implements the `*p1*p2*...*` part of a glob. -/
def globSeq : List (List Char) → List Char → Bool
  | [], _ => true
  | pat :: pats, s =>
    if listInfix pat s then globSeq pats (afterFirstAux pat s) else false

/-- Glob pattern of line 274: `*shipping*manager*copilot*.crt`. -/
def linuxGlobMatch (name : String) : Bool :=
  let cs := name.toList
  let n := cs.length
  if n ≥ 4 ∧ cs.drop (n - 4) = ".crt".toList then
    globSeq ["shipping".toList, "manager".toList, "copilot".toList] (cs.take (n - 4))
  else false

/-- Python `Path.stem`: file name without its final suffix. -/
def stem (name : String) : String :=
  let rev := name.toList.reverse
  if rev.contains '.' then
    match rev.dropWhile (· ≠ '.') with
    | [] => name
    | _ :: restRev => if restRev.isEmpty then name else String.mk restRev.reverse
  else name

/-- Linux branch of get_all_installed_certificates (lines 270-275): the
file-system query either raises, or yields the directory-exists flag and the
file names in /usr/local/share/ca-certificates. -/
def get_all_installed_certificates_linux : Except Unit (Bool × List String) → List String
  | .error _ => []
  | .ok (dirExists, files) =>
    if dirExists then (files.filter linuxGlobMatch).map stem else []

/-- Unsupported-platform branch of get_all_installed_certificates: no branch
runs, the initial empty list is returned (line 280). -/
def get_all_installed_certificates_other : List String := []

/-- Windows branch of is_certificate_installed (lines 187-195): returncode 0
of `certutil -verifystore` means installed; a raised query returns False
(lines 215-217). -/
def is_certificate_installed_windows : QueryOutcome → Bool
  | .raised => false
  | .completed rc _ => rc == 0

/-- macOS branch of is_certificate_installed (lines 197-205). -/
def is_certificate_installed_darwin : QueryOutcome → Bool
  | .raised => false
  | .completed rc _ => rc == 0

/-- Linux branch of is_certificate_installed (lines 207-210): the existence
check either raises (handled at 215-217) or yields a Boolean. -/
def is_certificate_installed_linux : Except Unit Bool → Bool
  | .error _ => false
  | .ok b => b

/-- Unsupported-platform branch of is_certificate_installed (lines 212-213). -/
def is_certificate_installed_other : Bool := false

/- ------------------------------------------------------------------
Windows removal-identifier scanner (uninstall_certificates, lines 611-624).
------------------------------------------------------------------ -/

/-- Line 619: the line carries a content hash. -/
def isSha1Line (line : String) : Bool :=
  containsStr line "(sha1):"

/-- Line 621: `line.split(SHA1TAG, 1)[1].strip()`. -/
def extractSha1 (line : String) : String :=
  pyStrip (afterFirstStr "(sha1):" line)

/-- Lines 612-624: the two-state scanner over certutil `-store Root` output.
The Boolean argument is `found_our_cert`: set on a matching subject line,
consumed (and reset) by the next content-hash line. -/
def collectHashes : List String → Bool → List String
  | [], _ => []
  | line :: rest, found =>
    if subjectMatches line then collectHashes rest true
    else if found && isSha1Line line && !(startsWithStr (pyStrip line) "--") then
      extractSha1 line :: collectHashes rest false
    else collectHashes rest found

/- ------------------------------------------------------------------
Scratch batch-script lifecycle and the Privileged Execution Gateway.
------------------------------------------------------------------ -/

/-- One event in the life of the generated `.bat` script: it is created
(tempfile write), executed through `ShellExecuteW` with `runas` (the return
value is recorded), or deleted (`os.unlink`). -/
inductive ScriptEvent where
  | create
  | exec (ret : Int)
  | unlink
deriving DecidableEq

/-- Whether a script file is on disk after the event. -/
def scriptStep (onDisk : Bool) : ScriptEvent → Bool
  | .create => true
  | .exec _ => onDisk
  | .unlink => false

/-- Whether the scratch script remains on disk after the given trace,
starting from a clean disk. -/
def scriptRemains (tr : List ScriptEvent) : Bool :=
  tr.foldl scriptStep false

/-- Number of Privileged Execution Gateway invocations (elevated
`ShellExecuteW` launches) in a script trace. -/
def gatewayCallsOf (tr : List ScriptEvent) : Nat :=
  tr.countP (fun e => match e with | .exec _ => true | _ => false)

/- ------------------------------------------------------------------
Windows trust store model.
------------------------------------------------------------------ -/

/-- One entry of the Windows Root store: its subject distinguished name and
its sha1 content hash (the removal identifier). -/
structure WinEntry where
  subject : String
  sha1 : String
deriving DecidableEq

/-- The lines certutil `-store Root` prints for one entry (the model keeps
the two lines the manager reads: the subject line and the hash line). -/
def renderEntry (e : WinEntry) : List String :=
  ["Subject: " ++ e.subject, "Cert Hash(sha1): " ++ e.sha1]

/-- certutil `-store Root` output for a whole store. -/
def renderStore (store : List WinEntry) : List String :=
  List.flatten (store.map renderEntry)

/-- Effect of the elevated deletion batch (`certutil -delstore Root HASH`,
one line per hash, lines 635-637): every entry whose hash is listed is
removed. -/
def applyDelBatch (store : List WinEntry) (hashes : List String) : List WinEntry :=
  store.filter (fun e => !(hashes.contains e.sha1))

/-- certutil `-verifystore Root` with the current Common Name succeeds
exactly when some entry carries it (model of is_certificate_installed on a
working query). -/
def winVerifyInstalled (store : List WinEntry) : Bool :=
  store.any (fun e => containsStr e.subject "CN=Shipping Manager CoPilot CA")

/- ------------------------------------------------------------------
uninstall_certificates (lines 521-772), one definition per platform branch.
------------------------------------------------------------------ -/

/-- Environment of one Windows uninstall run: the dialog answer, the two
certutil `-store` queries (the one inside get_all_installed_certificates and
the one at line 595), and the `ShellExecuteW` return value. -/
structure WinUninstallEnv where
  confirmResponse : Option String
  query1Ok : Bool
  query2Raised : Bool
  query2rc : Int
  shellRet : Int
deriving DecidableEq

/-- Result of one Windows uninstall run. -/
structure WinUninstallResult where
  ok : Bool
  removedCount : Nat
  store : List WinEntry
  dialogs : List String
  script : List ScriptEvent
deriving DecidableEq

/-- uninstall_certificates on Windows (lines 521-601, 604-680, 737-772).
The store both feeds the queries and receives the elevated batch. -/
def uninstall_certificates_windows (silent : Bool) (env : WinUninstallEnv)
    (store : List WinEntry) : WinUninstallResult :=
  let installed := get_all_installed_certificates_windows
    (if env.query1Ok then .completed 0 (renderStore store) else .raised)
  if installed.isEmpty then
    { ok := true, removedCount := 0, store := store,
      dialogs := if silent then [] else ["No Certificates Found"], script := [] }
  else if !silent && !(env.confirmResponse == some "Yes") then
    { ok := false, removedCount := 0, store := store,
      dialogs := ["Confirm Uninstallation"], script := [] }
  else
    let d0 : List String :=
      if silent then [] else ["Confirm Uninstallation", "Admin Rights Required"]
    if env.query2Raised then
      { ok := false, removedCount := 0, store := store,
        dialogs := d0 ++ (if silent then [] else ["Uninstallation Failed"]),
        script := [] }
    else if env.query2rc ≠ 0 then
      { ok := false, removedCount := 0, store := store,
        dialogs := d0 ++ (if silent then [] else ["No Certificates Removed"]),
        script := [] }
    else
      let hashes := collectHashes (renderStore store) false
      if hashes.isEmpty then
        { ok := false, removedCount := 0, store := store,
          dialogs := d0 ++ (if silent then [] else ["No Certificates Removed"]),
          script := [] }
      else
        let granted := env.shellRet > 32
        let newStore := if granted then applyDelBatch store hashes else store
        let removed := if granted then hashes.length else 0
        { ok := removed > 0, removedCount := removed, store := newStore,
          dialogs := d0 ++
            (if silent then []
             else if removed > 0 then ["Success"] else ["No Certificates Removed"]),
          script := [.create, .exec env.shellRet, .unlink] }

/-- Environment of one macOS uninstall run: the enumeration query, the dialog
answer, and the `osascript ... with administrator privileges` outcome for
each certificate label (raised, or a return code). -/
structure MacUninstallEnv where
  query : QueryOutcome
  confirmResponse : Option String
  deleteOutcome : String → Except Unit Int

/-- Result of one macOS or Linux uninstall run: there is no scratch script,
so only the privileged-invocation count is traced. -/
structure PosixUninstallResult where
  ok : Bool
  removedCount : Nat
  dialogs : List String
  gatewayCalls : Nat
deriving DecidableEq

/-- uninstall_certificates on macOS (lines 521-570, 682-705, 737-772):
one `osascript` privileged invocation per certificate label. -/
def uninstall_certificates_darwin (silent : Bool) (env : MacUninstallEnv) :
    PosixUninstallResult :=
  let installed := get_all_installed_certificates_darwin env.query
  if installed.isEmpty then
    { ok := true, removedCount := 0,
      dialogs := if silent then [] else ["No Certificates Found"], gatewayCalls := 0 }
  else if !silent && !(env.confirmResponse == some "Yes") then
    { ok := false, removedCount := 0,
      dialogs := ["Confirm Uninstallation"], gatewayCalls := 0 }
  else
    let removed := installed.foldl
      (fun n c =>
        match env.deleteOutcome c with
        | .ok rc => if rc == 0 then n + 1 else n
        | .error _ => n) 0
    { ok := removed > 0, removedCount := removed,
      dialogs :=
        (if silent then [] else ["Confirm Uninstallation", "Admin Password Required"]) ++
        (if silent then []
         else if removed > 0 then ["Success"] else ["No Certificates Removed"]),
      gatewayCalls := installed.length }

/-- Environment of one Linux uninstall run: the ca-certificates directory
query, the dialog answer, whether each `pkexec rm` succeeds, and whether the
final `pkexec update-ca-certificates` raises. -/
structure LinuxUninstallEnv where
  fs : Except Unit (Bool × List String)
  confirmResponse : Option String
  rmOk : String → Bool
  updateRaised : Bool

/-- uninstall_certificates on Linux (lines 521-570, 707-735, 737-772):
one `pkexec rm` invocation per certificate plus, when anything was removed,
one `pkexec update-ca-certificates` invocation. -/
def uninstall_certificates_linux (silent : Bool) (env : LinuxUninstallEnv) :
    PosixUninstallResult :=
  let installed := get_all_installed_certificates_linux env.fs
  if installed.isEmpty then
    { ok := true, removedCount := 0,
      dialogs := if silent then [] else ["No Certificates Found"], gatewayCalls := 0 }
  else if !silent && !(env.confirmResponse == some "Yes") then
    { ok := false, removedCount := 0,
      dialogs := ["Confirm Uninstallation"], gatewayCalls := 0 }
  else
    let removed := installed.countP env.rmOk
    let calls := installed.length + (if removed > 0 then 1 else 0)
    if removed > 0 && env.updateRaised then
      { ok := false, removedCount := removed,
        dialogs :=
          (if silent then [] else ["Confirm Uninstallation", "Admin Password Required"]) ++
          (if silent then [] else ["Uninstallation Failed"]),
        gatewayCalls := calls }
    else
      { ok := removed > 0, removedCount := removed,
        dialogs :=
          (if silent then [] else ["Confirm Uninstallation", "Admin Password Required"]) ++
          (if silent then []
           else if removed > 0 then ["Success"] else ["No Certificates Removed"]),
        gatewayCalls := calls }

/- ------------------------------------------------------------------
install_certificate (lines 282-519).
------------------------------------------------------------------ -/

/-- Line 343: the defense-in-depth path check of the Windows branch:
single quote, double quote or semicolon in the artifact path. -/
def pathUnsafe (p : String) : Bool :=
  p.toList.contains squote || p.toList.contains dquote || p.toList.contains ';'

/-- The exception raised inside the Windows branch of install_certificate
and caught by the handler at lines 511-519. -/
inductive InstallErr where
  | unsafePath
  | shellExecFailed (code : Int)
  | verifyFailed
deriving DecidableEq

/-- Environment of one Windows install run. -/
structure WinInstallEnv where
  certExists : Bool
  detectQueryOk : Bool
  replaceResponse : Option String
  consolidation : WinUninstallEnv
  installShellRet : Int
  newCertEntry : WinEntry
  verifyQueryOk : Bool
deriving DecidableEq

/-- Result of one Windows install run. -/
structure WinInstallResult where
  ok : Bool
  err : Option InstallErr
  store : List WinEntry
  dialogs : List String
  script : List ScriptEvent
deriving DecidableEq

/-- The detection call of install_certificate at line 304, on Windows. -/
def winDetectForInstall (env : WinInstallEnv) (store : List WinEntry) : List String :=
  get_all_installed_certificates_windows
    (if env.detectQueryOk then .completed 0 (renderStore store) else .raised)

/-- Lines 329-428: the Windows branch of install_certificate after the
consolidation step; `store1` is the store it starts from, `d0` / `script0`
what the run accumulated so far. -/
def install_certificate_windows_core (path : String) (env : WinInstallEnv)
    (store1 : List WinEntry) (d0 : List String) (script0 : List ScriptEvent) :
    WinInstallResult :=
  let d1 := d0 ++ ["Admin Rights Required"]
  if pathUnsafe path then
    { ok := false, err := some .unsafePath, store := store1,
      dialogs := d1 ++ ["Installation Failed"], script := script0 }
  else
    let ret := env.installShellRet
    if ret ≤ 32 then
      { ok := false, err := some (.shellExecFailed ret), store := store1,
        dialogs := d1 ++ ["Installation Failed"],
        script := script0 ++ [.create, .exec ret, .unlink] }
    else
      let store2 :=
        if store1.any (fun e => e.sha1 == env.newCertEntry.sha1) then store1
        else store1 ++ [env.newCertEntry]
      let verified := is_certificate_installed_windows
        (if env.verifyQueryOk then .completed (if winVerifyInstalled store2 then 0 else 1) []
         else .raised)
      if verified then
        { ok := true, err := none, store := store2,
          dialogs := d1 ++ ["Success"],
          script := script0 ++ [.create, .exec ret, .unlink] }
      else
        { ok := false, err := some .verifyFailed, store := store2,
          dialogs := d1 ++ ["Installation Failed"],
          script := script0 ++ [.create, .exec ret, .unlink] }

/-- install_certificate on Windows (lines 282-428, 503-519): artifact check,
detection over all naming variants, optional consolidation through a silent
uninstall_certificates run, then the elevated batch install and
re-verification. -/
def install_certificate_windows (path : String) (env : WinInstallEnv)
    (store : List WinEntry) : WinInstallResult :=
  if !env.certExists then
    { ok := false, err := none, store := store,
      dialogs := ["Certificate Not Found"], script := [] }
  else
    let allCerts := winDetectForInstall env store
    if allCerts.isEmpty then
      install_certificate_windows_core path env store [] []
    else if !(env.replaceResponse == some "Yes") then
      { ok := false, err := none, store := store,
        dialogs := ["Old Certificates Found"], script := [] }
    else
      let u := uninstall_certificates_windows true env.consolidation store
      install_certificate_windows_core path env u.store
        (["Old Certificates Found"] ++ u.dialogs) u.script

/-- The osascript shell string built at lines 442-443 (the artifact path is
interpolated into the privileged command). -/
def macInstallCmd (path : String) : String :=
  "do shell script \"security add-trusted-cert -d -r trustRoot -k /Library/Keychains/System.keychain "
    ++ path ++ "\" with administrator privileges"

/-- Environment of one macOS install run. -/
structure MacInstallEnv where
  certExists : Bool
  query : QueryOutcome
  replaceResponse : Option String
  consolidation : MacUninstallEnv
  addOutcome : Except Unit Int

/-- Result of one macOS install run; `privCmds` lists the privileged shell
strings the run constructed. -/
structure MacInstallResult where
  ok : Bool
  dialogs : List String
  privCmds : List String
  gatewayCalls : Nat
deriving DecidableEq

/-- install_certificate on macOS (lines 282-324, 431-459, 503-519): note the
branch has no path validation before building the osascript string. -/
def install_certificate_darwin (path : String) (env : MacInstallEnv) :
    MacInstallResult :=
  if !env.certExists then
    { ok := false, dialogs := ["Certificate Not Found"], privCmds := [], gatewayCalls := 0 }
  else
    let allCerts := get_all_installed_certificates_darwin env.query
    let goOn := allCerts.isEmpty || env.replaceResponse == some "Yes"
    if !goOn then
      { ok := false, dialogs := ["Old Certificates Found"], privCmds := [], gatewayCalls := 0 }
    else
      let ug := if allCerts.isEmpty then 0
        else (uninstall_certificates_darwin true env.consolidation).gatewayCalls
      let d0 := (if allCerts.isEmpty then [] else ["Old Certificates Found"]) ++
        ["Admin Password Required"]
      let cmds := [macInstallCmd path]
      match env.addOutcome with
      | .error _ =>
        { ok := false, dialogs := d0 ++ ["Timeout"], privCmds := cmds,
          gatewayCalls := ug + 1 }
      | .ok rc =>
        if rc ≠ 0 then
          { ok := false, dialogs := d0 ++ ["Installation Failed"], privCmds := cmds,
            gatewayCalls := ug + 1 }
        else
          { ok := true, dialogs := d0 ++ ["Success"], privCmds := cmds,
            gatewayCalls := ug + 1 }

/- ------------------------------------------------------------------
Well-formed certutil listing records, for the scanner claim.
------------------------------------------------------------------ -/

/-- A certutil `-store Root` record block, as the scanner sees it: the lines
up to and including the subject (`pre`), the single content-hash line of the
block, and the trailing lines of the block. -/
def CertRecord : Type := List String × String × List String

/-- Well-formedness of one record block: the hash line is the only line of
the block carrying `(sha1):`, it is not a subject line and does not start
with `--`; the trailing lines match no subject either. -/
def goodRecord (r : CertRecord) : Bool :=
  r.1.all (fun l => !(isSha1Line l)) &&
  isSha1Line r.2.1 && !(startsWithStr (pyStrip r.2.1) "--") && !(subjectMatches r.2.1) &&
  r.2.2.all (fun l => !(isSha1Line l) && !(subjectMatches l))

/-- Whether the record belongs to one of our certificates: some line before
its hash line carries a matching Common Name. -/
def recordMatches (r : CertRecord) : Bool :=
  r.1.any subjectMatches

/-- Concatenated listing output of a sequence of record blocks. -/
def renderRecords (rs : List CertRecord) : List String :=
  List.flatten (rs.map (fun r => r.1 ++ r.2.1 :: r.2.2))

/- ------------------------------------------------------------------
Helper lemmas about the Windows subject collector.
------------------------------------------------------------------ -/

lemma winCollectSubjects_mono (lines : List String) :
    ∀ (acc : List String) (x : String), x ∈ acc → x ∈ winCollectSubjects lines acc := by
  induction lines with
  | nil => intro acc x hx; simpa [winCollectSubjects] using hx
  | cons line rest ih =>
    intro acc x hx
    simp only [winCollectSubjects]
    split
    · split
      · split
        · exact ih acc x hx
        · exact ih _ x (List.mem_append_left _ hx)
      · exact ih acc x hx
    · exact ih acc x hx

lemma winCollectSubjects_complete (lines : List String) :
    ∀ (acc : List String) (l : String), l ∈ lines → subjectMatches l = true →
      containsStr l ":" = true →
      extractSubject l ∈ winCollectSubjects lines acc := by
  induction lines with
  | nil => intro acc l hl; exact absurd hl (List.not_mem_nil l)
  | cons line rest ih =>
    intro acc l hl hm hc
    rcases List.mem_cons.mp hl with heq | htail
    · subst heq
      simp only [winCollectSubjects, hm, hc, if_true]
      split
      · exact winCollectSubjects_mono rest acc _ (by assumption)
      · exact winCollectSubjects_mono rest _ _
          (List.mem_append_right _ (List.mem_singleton.mpr rfl))
    · simp only [winCollectSubjects]
      split
      · split
        · split
          · exact ih acc l htail hm hc
          · exact ih _ l htail hm hc
        · exact ih acc l htail hm hc
      · exact ih acc l htail hm hc

lemma macStep_preserves (acc : List String) (line : String)
    (h : ∀ x ∈ acc, containsStr x "Shipping Manager CoPilot" = true) :
    ∀ x ∈ macStep acc line, containsStr x "Shipping Manager CoPilot" = true := by
  intro x hx
  unfold macStep at hx
  split at hx
  · dsimp only at hx
    split at hx
    · rcases List.mem_append.mp hx with h1 | h2
      · exact h x h1
      · rw [List.mem_singleton.mp h2]; assumption
    · exact h x hx
  · exact h x hx

lemma mac_foldl_contains (lines : List String) :
    ∀ (acc : List String), (∀ x ∈ acc, containsStr x "Shipping Manager CoPilot" = true) →
      ∀ l ∈ lines.foldl macStep acc, containsStr l "Shipping Manager CoPilot" = true := by
  induction lines with
  | nil => intro acc h l hl; exact h l hl
  | cons line rest ih =>
    intro acc h l hl
    exact ih (macStep acc line) (macStep_preserves acc line h) l hl

/-- C1, counterexample: a macOS keychain listing whose only entry is the
legacy-named certificate `Shipping Manager Chat CA`; the detection operation
does not return it, so the claim that every platform finds entries under the
legacy Common Name fails. -/
theorem C1_counterexample :
    ¬ ("Shipping Manager Chat CA" ∈ get_all_installed_certificates_darwin
        (.completed 0 ["    \"labl\"<blob>=\"Shipping Manager Chat CA\""])) := by
  decide

/-- C1, amended: on Windows, detection finds every listing line carrying the
legacy Common Name `Shipping Manager Chat CA` (alongside current-name
entries); on macOS every identity the detection returns contains the current
string `Shipping Manager CoPilot`, so legacy-named entries are never
detected there. -/
theorem C1_theorem :
    (∀ (lines : List String) (l : String), l ∈ lines →
        containsStr l "CN=Shipping Manager Chat CA" = true →
        containsStr l ":" = true →
        extractSubject l ∈ get_all_installed_certificates_windows (.completed 0 lines)) ∧
    (∀ (q : QueryOutcome) (l : String),
        l ∈ get_all_installed_certificates_darwin q →
        containsStr l "Shipping Manager CoPilot" = true) := by
  constructor
  · intro lines l hl hlegacy hcolon
    have hm : subjectMatches l = true := by
      unfold subjectMatches
      rw [Bool.or_eq_true]
      exact Or.inr hlegacy
    simp only [get_all_installed_certificates_windows, if_pos rfl]
    exact winCollectSubjects_complete lines [] l hl hm hcolon
  · intro q l hl
    cases q with
    | raised => exact absurd hl (List.not_mem_nil l)
    | completed rc lines =>
      simp only [get_all_installed_certificates_darwin] at hl
      split at hl
      · exact mac_foldl_contains lines [] (by intro x hx; exact absurd hx (List.not_mem_nil x)) l hl
      · exact absurd hl (List.not_mem_nil l)

/-- C1, witness for the amended theorem at concrete inputs. -/
theorem C1_witness :
    extractSubject "Subject: CN=Shipping Manager Chat CA"
      ∈ get_all_installed_certificates_windows
        (.completed 0 ["Subject: CN=Shipping Manager Chat CA"]) ∧
    containsStr "Shipping Manager CoPilot CA" "Shipping Manager CoPilot" = true :=
  ⟨C1_theorem.1 ["Subject: CN=Shipping Manager Chat CA"]
      "Subject: CN=Shipping Manager Chat CA" (by decide) (by decide) (by decide),
   C1_theorem.2 (.completed 0 ["    \"labl\"<blob>=\"Shipping Manager CoPilot CA\""])
      "Shipping Manager CoPilot CA" (by decide)⟩

lemma winCollectSubjects_nodup (lines : List String) :
    ∀ (acc : List String), acc.Nodup → (winCollectSubjects lines acc).Nodup := by
  induction lines with
  | nil => intro acc h; simpa [winCollectSubjects] using h
  | cons line rest ih =>
    intro acc h
    simp only [winCollectSubjects]
    split
    · split
      · split
        · exact ih acc h
        · refine ih _ ?_
          rw [List.nodup_append]
          refine ⟨h, List.nodup_singleton _, ?_⟩
          intro a ha hb
          rw [List.mem_singleton.mp hb] at ha
          exact absurd ha (by assumption)
      · exact ih acc h
    · exact ih acc h

/-- C8, counterexample: on macOS two installed copies of the certificate
share the same label, the keychain listing repeats the `labl` line, and the
detection result contains the identity string twice — it is not
duplicate-free on every platform. -/
theorem C8_counterexample :
    ¬ (get_all_installed_certificates_darwin (.completed 0
        ["    \"labl\"<blob>=\"Shipping Manager CoPilot CA\"",
         "    \"labl\"<blob>=\"Shipping Manager CoPilot CA\""])).Nodup := by
  decide

/-- C8, amended: the Windows detection deduplicates by identity string
(line 248 skips subjects already collected), so its result never repeats an
identity; the macOS branch appends one entry per matching listing line with
no duplicate check. -/
theorem C8_theorem :
    ∀ (q : QueryOutcome), (get_all_installed_certificates_windows q).Nodup := by
  intro q
  cases q with
  | raised => simp [get_all_installed_certificates_windows]
  | completed rc lines =>
    simp only [get_all_installed_certificates_windows]
    split
    · exact winCollectSubjects_nodup lines [] List.nodup_nil
    · simp

/-- C10: for every error of the underlying platform query (a raised
subprocess call: command failure, timeout, missing tool) and on unsupported
platforms, is_certificate_installed returns False and
get_all_installed_certificates returns the entries collected so far — the
empty list, since the query raises before anything is collected; on a
completed query with nonzero return code both detection branches likewise
return the empty list. The embedded functions are total, so neither
operation propagates an exception to its caller. -/
theorem C10_theorem :
    is_certificate_installed_windows .raised = false ∧
    is_certificate_installed_darwin .raised = false ∧
    is_certificate_installed_linux (.error ()) = false ∧
    is_certificate_installed_other = false ∧
    get_all_installed_certificates_windows .raised = [] ∧
    get_all_installed_certificates_darwin .raised = [] ∧
    get_all_installed_certificates_linux (.error ()) = [] ∧
    get_all_installed_certificates_other = [] ∧
    (∀ (rc : Int) (lines : List String), rc ≠ 0 →
      get_all_installed_certificates_windows (.completed rc lines) = []) ∧
    (∀ (rc : Int) (lines : List String), rc ≠ 0 →
      get_all_installed_certificates_darwin (.completed rc lines) = []) := by
  refine ⟨rfl, rfl, rfl, rfl, rfl, rfl, rfl, rfl, ?_, ?_⟩
  · intro rc lines h
    simp [get_all_installed_certificates_windows, h]
  · intro rc lines h
    simp [get_all_installed_certificates_darwin, h]

/-- C10, witness: the nonzero-return-code conjuncts applied at return code 1
on a listing that would otherwise match. -/
theorem C10_witness :
    get_all_installed_certificates_windows
      (.completed 1 ["Subject: CN=Shipping Manager CoPilot CA"]) = [] ∧
    get_all_installed_certificates_darwin
      (.completed 1 ["    \"labl\"<blob>=\"Shipping Manager CoPilot CA\""]) = [] :=
  ⟨(C10_theorem.2.2.2.2.2.2.2.2.1) 1 ["Subject: CN=Shipping Manager CoPilot CA"] (by decide),
   (C10_theorem.2.2.2.2.2.2.2.2.2) 1 ["    \"labl\"<blob>=\"Shipping Manager CoPilot CA\""] (by decide)⟩

/-- C7, counterexample: a transport error of the enumeration command
(the subprocess call raised) does not propagate any AdapterQueryFailed
error: get_all_installed_certificates catches the exception and returns the
ordinary empty list, the same value a successful query with no matches
yields — the caller cannot distinguish the two. -/
theorem C7_counterexample :
    get_all_installed_certificates_windows .raised = [] ∧
    get_all_installed_certificates_windows .raised
      = get_all_installed_certificates_windows (.completed 0 []) := by
  exact ⟨rfl, rfl⟩

/-- C7, amended: on a transport error the detection operation swallows the
exception and returns the entries collected so far — the empty list — on
every platform, indistinguishable from a successful query that found no
matching entries; no error value reaches the caller and the query is not
retried. An empty result from a successful query is indeed not a failure. -/
theorem C7_theorem :
    get_all_installed_certificates_windows .raised = [] ∧
    get_all_installed_certificates_darwin .raised = [] ∧
    get_all_installed_certificates_linux (.error ()) = [] ∧
    get_all_installed_certificates_windows .raised
      = get_all_installed_certificates_windows (.completed 0 []) ∧
    get_all_installed_certificates_darwin .raised
      = get_all_installed_certificates_darwin (.completed 0 []) ∧
    get_all_installed_certificates_linux (.error ())
      = get_all_installed_certificates_linux (.ok (true, [])) := by
  exact ⟨rfl, rfl, rfl, rfl, rfl, by decide⟩

/-- C9: with silent=True every dialog site of uninstall_certificates is
skipped — whatever the initial state (no matches, removal success or
failure, raised queries), the run shows no confirmation, no admin-rights
notice and no success, warning or error dialog, on all three platforms. -/
theorem C9_theorem :
    (∀ (env : WinUninstallEnv) (store : List WinEntry),
      (uninstall_certificates_windows true env store).dialogs = []) ∧
    (∀ (env : MacUninstallEnv),
      (uninstall_certificates_darwin true env).dialogs = []) ∧
    (∀ (env : LinuxUninstallEnv),
      (uninstall_certificates_linux true env).dialogs = []) := by
  refine ⟨?_, ?_, ?_⟩
  · intro env store
    unfold uninstall_certificates_windows
    repeat' split
    all_goals simp_all
    all_goals repeat' split
    all_goals rfl
  · intro env
    unfold uninstall_certificates_darwin
    repeat' split
    all_goals simp_all
    all_goals repeat' split
    all_goals rfl
  · intro env
    unfold uninstall_certificates_linux
    repeat' split
    all_goals simp_all
    all_goals repeat' split
    all_goals rfl

lemma gatewayCallsOf_nil : gatewayCallsOf [] = 0 := rfl

lemma gatewayCallsOf_block (r : Int) :
    gatewayCallsOf [.create, .exec r, .unlink] = 1 := rfl

/-- C2, counterexample: a macOS store with two matching entries; the silent
uninstall run removes both but performs two privileged osascript
invocations — one elevation per certificate, not one per run. -/
theorem C2_counterexample :
    (uninstall_certificates_darwin true
      { query := .completed 0
          ["    \"labl\"<blob>=\"Shipping Manager CoPilot CA\"",
           "    \"labl\"<blob>=\"Shipping Manager CoPilot CA 2\""],
        confirmResponse := none,
        deleteOutcome := fun _ => .ok 0 }).gatewayCalls = 2 ∧
    (uninstall_certificates_darwin true
      { query := .completed 0
          ["    \"labl\"<blob>=\"Shipping Manager CoPilot CA\"",
           "    \"labl\"<blob>=\"Shipping Manager CoPilot CA 2\""],
        confirmResponse := none,
        deleteOutcome := fun _ => .ok 0 }).removedCount = 2 := by
  constructor <;> decide

/-- C2, amended: only the Windows branch batches: a Windows uninstall run
performs at most one Privileged Execution Gateway invocation (one
ShellExecuteW launch of one batch script covering all N hashes); the macOS
branch performs one privileged invocation per matching entry, and the Linux
branch one per entry plus one refresh invocation when anything was
removed. -/
theorem C2_theorem :
    (∀ (silent : Bool) (env : WinUninstallEnv) (store : List WinEntry),
      gatewayCallsOf (uninstall_certificates_windows silent env store).script ≤ 1) ∧
    (∀ (env : MacUninstallEnv),
      get_all_installed_certificates_darwin env.query ≠ [] →
      (uninstall_certificates_darwin true env).gatewayCalls
        = (get_all_installed_certificates_darwin env.query).length) ∧
    (∀ (env : LinuxUninstallEnv),
      get_all_installed_certificates_linux env.fs ≠ [] →
      (uninstall_certificates_linux true env).gatewayCalls
        = (get_all_installed_certificates_linux env.fs).length +
            (if 0 < List.countP env.rmOk (get_all_installed_certificates_linux env.fs)
             then 1 else 0)) := by
  refine ⟨?_, ?_, ?_⟩
  · intro silent env store
    unfold uninstall_certificates_windows
    repeat' split
    all_goals (try simp [gatewayCallsOf_nil, gatewayCallsOf_block])
    all_goals repeat' split
    all_goals simp [gatewayCallsOf_nil, gatewayCallsOf_block]
  · intro env hne
    unfold uninstall_certificates_darwin
    repeat' split
    all_goals simp_all
  · intro env hne
    unfold uninstall_certificates_linux
    repeat' split
    all_goals (try simp_all)
    all_goals repeat' split
    all_goals (try simp_all)
    all_goals aesop

/-- C2, witness for the amended theorem: the macOS and Linux conjuncts
applied at concrete two-entry and one-entry stores. -/
theorem C2_witness :
    (uninstall_certificates_darwin true
      { query := .completed 0
          ["    \"labl\"<blob>=\"Shipping Manager CoPilot CA\"",
           "    \"labl\"<blob>=\"Shipping Manager CoPilot CA 2\""],
        confirmResponse := none,
        deleteOutcome := fun _ => .ok 0 }).gatewayCalls
      = (get_all_installed_certificates_darwin (.completed 0
          ["    \"labl\"<blob>=\"Shipping Manager CoPilot CA\"",
           "    \"labl\"<blob>=\"Shipping Manager CoPilot CA 2\""])).length ∧
    (uninstall_certificates_linux true
      { fs := .ok (true, ["shipping-manager-copilot-ca.crt"]),
        confirmResponse := none,
        rmOk := fun _ => true,
        updateRaised := false }).gatewayCalls
      = (get_all_installed_certificates_linux
          (.ok (true, ["shipping-manager-copilot-ca.crt"]))).length +
          (if 0 < List.countP (fun _ => true)
              (get_all_installed_certificates_linux
                (.ok (true, ["shipping-manager-copilot-ca.crt"])))
           then 1 else 0) :=
  ⟨C2_theorem.2.1
      { query := .completed 0
          ["    \"labl\"<blob>=\"Shipping Manager CoPilot CA\"",
           "    \"labl\"<blob>=\"Shipping Manager CoPilot CA 2\""],
        confirmResponse := none,
        deleteOutcome := fun _ => .ok 0 } (by decide),
   C2_theorem.2.2
      { fs := .ok (true, ["shipping-manager-copilot-ca.crt"]),
        confirmResponse := none,
        rmOk := fun _ => true,
        updateRaised := false } (by decide)⟩

lemma scriptRemains_append_block (xs : List ScriptEvent) (r : Int) :
    scriptRemains (xs ++ [.create, .exec r, .unlink]) = false := by
  simp [scriptRemains, List.foldl_append, scriptStep]

lemma uninstall_windows_script_clean (silent : Bool) (env : WinUninstallEnv)
    (store : List WinEntry) :
    scriptRemains (uninstall_certificates_windows silent env store).script = false := by
  unfold uninstall_certificates_windows
  repeat' split
  all_goals (try (simp [scriptRemains, scriptStep]))
  all_goals repeat' split
  all_goals (simp [scriptRemains, scriptStep])

lemma install_windows_core_script_clean (path : String) (env : WinInstallEnv)
    (store1 : List WinEntry) (d0 : List String) (script0 : List ScriptEvent)
    (h : scriptRemains script0 = false) :
    scriptRemains (install_certificate_windows_core path env store1 d0 script0).script
      = false := by
  unfold install_certificate_windows_core
  repeat' split
  all_goals (try (exact h))
  all_goals (try (simp only [scriptRemains_append_block]))
  all_goals repeat' split
  all_goals (first | exact h | exact scriptRemains_append_block script0 env.installShellRet)

/-- C6: whatever the run's outcome — success, declined elevation (launch
return at most 32), launch failure, failed verification, raised or failed
queries — the generated `.bat` command script does not remain on disk after
install_certificate or uninstall_certificates returns: every path that
creates the script also unlinks it. -/
theorem C6_theorem :
    (∀ (path : String) (env : WinInstallEnv) (store : List WinEntry),
      scriptRemains (install_certificate_windows path env store).script = false) ∧
    (∀ (silent : Bool) (env : WinUninstallEnv) (store : List WinEntry),
      scriptRemains (uninstall_certificates_windows silent env store).script = false) := by
  constructor
  · intro path env store
    unfold install_certificate_windows
    dsimp only
    split
    · rfl
    · split
      · exact install_windows_core_script_clean path env store [] [] rfl
      · split
        · rfl
        · exact install_windows_core_script_clean path env _ _ _
            (uninstall_windows_script_clean true env.consolidation store)
  · exact uninstall_windows_script_clean

/-- C3, counterexample: the trust store initially holds one legacy entry.
The user approves consolidation, its elevation is granted (ShellExecuteW
returns 40) and removes the entry, then the install elevation is declined
(ShellExecuteW returns 5, access denied). The run fails as the claim says,
but the trust store is not as it was before the call: the pre-existing
entry is gone. -/
theorem C3_counterexample :
    (install_certificate_windows "C:\\certs\\ca-cert.pem"
      { certExists := true, detectQueryOk := true, replaceResponse := some "Yes",
        consolidation := { confirmResponse := none, query1Ok := true, query2Raised := false, query2rc := 0, shellRet := 40 },
        installShellRet := 5,
        newCertEntry := { subject := "CN=Shipping Manager CoPilot CA", sha1 := "bb 22" },
        verifyQueryOk := true }
      [{ subject := "CN=Shipping Manager Chat CA", sha1 := "aa 11" }]).ok = false ∧
    (install_certificate_windows "C:\\certs\\ca-cert.pem"
      { certExists := true, detectQueryOk := true, replaceResponse := some "Yes",
        consolidation := { confirmResponse := none, query1Ok := true, query2Raised := false, query2rc := 0, shellRet := 40 },
        installShellRet := 5,
        newCertEntry := { subject := "CN=Shipping Manager CoPilot CA", sha1 := "bb 22" },
        verifyQueryOk := true }
      [{ subject := "CN=Shipping Manager Chat CA", sha1 := "aa 11" }]).err
        = some (.shellExecFailed 5) ∧
    (install_certificate_windows "C:\\certs\\ca-cert.pem"
      { certExists := true, detectQueryOk := true, replaceResponse := some "Yes",
        consolidation := { confirmResponse := none, query1Ok := true, query2Raised := false, query2rc := 0, shellRet := 40 },
        installShellRet := 5,
        newCertEntry := { subject := "CN=Shipping Manager CoPilot CA", sha1 := "bb 22" },
        verifyQueryOk := true }
      [{ subject := "CN=Shipping Manager Chat CA", sha1 := "aa 11" }]).store
        ≠ [{ subject := "CN=Shipping Manager Chat CA", sha1 := "aa 11" }] := by
  refine ⟨?_, ?_, ?_⟩ <;> decide

/-- C3, amended: when the trust store holds no matching entries before the
call (so no consolidation runs), a declined or failed install elevation
(ShellExecuteW return at most 32) makes install_certificate fail — the
denial surfaces as the launch-failure error carrying the return code, the
code having no distinct ElevationDenied value — and the trust store is
exactly as before: nothing added, nothing removed. When matching entries
existed, the approved consolidation may already have removed them before
the declined install elevation. -/
theorem C3_theorem (path : String) (env : WinInstallEnv) (store : List WinEntry)
    (hdet : winDetectForInstall env store = [])
    (hcert : env.certExists = true)
    (hsafe : pathUnsafe path = false)
    (hret : env.installShellRet ≤ 32) :
    (install_certificate_windows path env store).ok = false ∧
    (install_certificate_windows path env store).err
      = some (.shellExecFailed env.installShellRet) ∧
    (install_certificate_windows path env store).store = store := by
  unfold install_certificate_windows
  dsimp only
  simp only [hcert, Bool.not_true, hdet, List.isEmpty_nil, if_true, if_false]
  unfold install_certificate_windows_core
  dsimp only
  have hp : ¬ (pathUnsafe path = true) := by simp [hsafe]
  rw [if_pos hret, if_neg hp]
  exact ⟨rfl, rfl, rfl⟩

/-- C3, witness for the amended theorem: an empty store, a safe path and a
declined elevation (return code 5). -/
theorem C3_witness :
    (install_certificate_windows "C:\\certs\\ca-cert.pem"
      { certExists := true, detectQueryOk := true, replaceResponse := none,
        consolidation := { confirmResponse := none, query1Ok := true, query2Raised := false, query2rc := 0, shellRet := 40 },
        installShellRet := 5,
        newCertEntry := { subject := "CN=Shipping Manager CoPilot CA", sha1 := "bb 22" },
        verifyQueryOk := true } []).ok = false ∧
    (install_certificate_windows "C:\\certs\\ca-cert.pem"
      { certExists := true, detectQueryOk := true, replaceResponse := none,
        consolidation := { confirmResponse := none, query1Ok := true, query2Raised := false, query2rc := 0, shellRet := 40 },
        installShellRet := 5,
        newCertEntry := { subject := "CN=Shipping Manager CoPilot CA", sha1 := "bb 22" },
        verifyQueryOk := true } []).err = some (.shellExecFailed 5) ∧
    (install_certificate_windows "C:\\certs\\ca-cert.pem"
      { certExists := true, detectQueryOk := true, replaceResponse := none,
        consolidation := { confirmResponse := none, query1Ok := true, query2Raised := false, query2rc := 0, shellRet := 40 },
        installShellRet := 5,
        newCertEntry := { subject := "CN=Shipping Manager CoPilot CA", sha1 := "bb 22" },
        verifyQueryOk := true } []).store = [] :=
  C3_theorem "C:\\certs\\ca-cert.pem"
    { certExists := true, detectQueryOk := true, replaceResponse := none,
      consolidation := { confirmResponse := none, query1Ok := true, query2Raised := false, query2rc := 0, shellRet := 40 },
      installShellRet := 5,
      newCertEntry := { subject := "CN=Shipping Manager CoPilot CA", sha1 := "bb 22" },
      verifyQueryOk := true } [] (by decide) rfl (by decide) (by decide)

/-- C4, counterexample: on macOS an artifact path containing a double quote
is not rejected: install_certificate builds the privileged osascript shell
string with the path interpolated into it and the run proceeds (here to
success) — no UnsafePath failure occurs before the privileged command is
constructed. -/
theorem C4_counterexample :
    pathUnsafe "/tmp/ca\".pem" = true ∧
    (install_certificate_darwin "/tmp/ca\".pem"
      { certExists := true, query := .completed 0 [], replaceResponse := none,
        consolidation := ⟨.raised, none, fun _ => .error ()⟩,
        addOutcome := .ok 0 }).ok = true ∧
    (install_certificate_darwin "/tmp/ca\".pem"
      { certExists := true, query := .completed 0 [], replaceResponse := none,
        consolidation := ⟨.raised, none, fun _ => .error ()⟩,
        addOutcome := .ok 0 }).privCmds = [macInstallCmd "/tmp/ca\".pem"] := by
  refine ⟨?_, ?_, ?_⟩ <;> decide

/-- C4, amended: on Windows an artifact path containing a quote or a
semicolon makes install_certificate fail with the invalid-path error before
any batch script of its own is constructed (with no pre-existing matching
entries, no privileged command at all is built and the store is untouched);
the macOS branch performs no such validation — for every path, unsafe ones
included, it constructs the privileged osascript string with the path
interpolated. -/
theorem C4_theorem :
    (∀ (path : String) (env : WinInstallEnv) (store : List WinEntry),
      env.certExists = true →
      winDetectForInstall env store = [] →
      pathUnsafe path = true →
      (install_certificate_windows path env store).err = some .unsafePath ∧
      (install_certificate_windows path env store).ok = false ∧
      (install_certificate_windows path env store).script = [] ∧
      (install_certificate_windows path env store).store = store) ∧
    (∀ (path : String) (env : MacInstallEnv),
      env.certExists = true →
      get_all_installed_certificates_darwin env.query = [] →
      macInstallCmd path ∈ (install_certificate_darwin path env).privCmds) := by
  constructor
  · intro path env store hcert hdet hp
    unfold install_certificate_windows
    dsimp only
    simp only [hcert, Bool.not_true, hdet, List.isEmpty_nil, if_true, if_false]
    unfold install_certificate_windows_core
    dsimp only
    rw [if_pos hp]
    exact ⟨rfl, rfl, rfl, rfl⟩
  · intro path env hcert hdet
    unfold install_certificate_darwin
    dsimp only
    simp only [hcert, Bool.not_true, hdet, List.isEmpty_nil, Bool.true_or, Bool.not_true,
      if_false]
    cases env.addOutcome with
    | error e => simp
    | ok rc =>
      dsimp only
      repeat' split
      all_goals simp_all

/-- C4, witness for the amended theorem: a semicolon path on Windows with an
empty store, and an arbitrary path on macOS. -/
theorem C4_witness :
    (install_certificate_windows "C:\\x;.pem"
      { certExists := true, detectQueryOk := true, replaceResponse := none,
        consolidation := { confirmResponse := none, query1Ok := true, query2Raised := false, query2rc := 0, shellRet := 40 },
        installShellRet := 40,
        newCertEntry := { subject := "CN=Shipping Manager CoPilot CA", sha1 := "bb 22" },
        verifyQueryOk := true } []).err = some .unsafePath ∧
    macInstallCmd "/tmp/ca.pem" ∈ (install_certificate_darwin "/tmp/ca.pem"
      { certExists := true, query := .completed 0 [], replaceResponse := none,
        consolidation := ⟨.raised, none, fun _ => .error ()⟩,
        addOutcome := .ok 0 }).privCmds :=
  ⟨(C4_theorem.1 "C:\\x;.pem"
      { certExists := true, detectQueryOk := true, replaceResponse := none,
        consolidation := { confirmResponse := none, query1Ok := true, query2Raised := false, query2rc := 0, shellRet := 40 },
        installShellRet := 40,
        newCertEntry := { subject := "CN=Shipping Manager CoPilot CA", sha1 := "bb 22" },
        verifyQueryOk := true } [] rfl (by decide) (by decide)).1,
   C4_theorem.2 "/tmp/ca.pem"
      { certExists := true, query := .completed 0 [], replaceResponse := none,
        consolidation := ⟨.raised, none, fun _ => .error ()⟩,
        addOutcome := .ok 0 } rfl (by decide)⟩

lemma collectHashes_append_nosha :
    ∀ (pre rest : List String) (f : Bool),
      (∀ l ∈ pre, isSha1Line l = false) →
      collectHashes (pre ++ rest) f = collectHashes rest (f || pre.any subjectMatches) := by
  intro pre
  induction pre with
  | nil => intro rest f _; simp
  | cons a pre ih =>
    intro rest f h
    have ha : isSha1Line a = false := h a (List.mem_cons_self a pre)
    have h' : ∀ l ∈ pre, isSha1Line l = false := fun l hl => h l (List.mem_cons_of_mem a hl)
    by_cases hm : subjectMatches a = true
    · simp only [List.cons_append, collectHashes, hm, if_true]
      rw [List.append_eq, ih rest true h']
      simp [hm]
    · have hm' : subjectMatches a = false := by
        cases hsm : subjectMatches a
        · rfl
        · exact absurd hsm hm
      simp only [List.cons_append, collectHashes, hm', ha, Bool.false_eq_true, if_false,
        Bool.and_false, Bool.false_and]
      rw [List.append_eq, ih rest f h']
      simp [hm']

lemma collectHashes_record (pre : List String) (hl : String) (post rest : List String)
    (hpre : ∀ l ∈ pre, isSha1Line l = false)
    (hhl1 : isSha1Line hl = true)
    (hhl2 : startsWithStr (pyStrip hl) "--" = false)
    (hhl3 : subjectMatches hl = false)
    (hpost : ∀ l ∈ post, isSha1Line l = false ∧ subjectMatches l = false) :
    collectHashes (pre ++ hl :: (post ++ rest)) false
      = (if pre.any subjectMatches = true then [extractSha1 hl] else [])
          ++ collectHashes rest false := by
  have hpostany : post.any subjectMatches = false := by
    cases hp : post.any subjectMatches
    · rfl
    · rw [List.any_eq_true] at hp
      obtain ⟨x, hx, hpx⟩ := hp
      rw [(hpost x hx).2] at hpx
      cases hpx
  have hpostsha : ∀ l ∈ post, isSha1Line l = false := fun l hl => (hpost l hl).1
  rw [collectHashes_append_nosha pre (hl :: (post ++ rest)) false hpre]
  simp only [Bool.false_or]
  by_cases hm : pre.any subjectMatches = true
  · rw [hm]
    simp only [collectHashes, hhl3, Bool.false_eq_true, if_false, hhl1, hhl2,
      Bool.and_true, Bool.true_and, Bool.not_false, if_true]
    rw [collectHashes_append_nosha post rest false hpostsha]
    simp [hpostany]
  · have hm' : pre.any subjectMatches = false := by
      cases hp : pre.any subjectMatches
      · rfl
      · exact absurd hp hm
    rw [hm']
    simp only [collectHashes, hhl3, Bool.false_eq_true, if_false, Bool.false_and]
    rw [collectHashes_append_nosha post rest false hpostsha]
    simp [hpostany]

/-- C5: on every well-formed certutil root-store listing — a sequence of
record blocks, each containing exactly one content-hash line, preceded
within the block by its subject — the scanner pairs each matched subject
with the hash line of its own block and nothing else: the collected hashes
are exactly the hashes of the records whose subject matches, in order. In
particular the state resets after each pairing and a hash line of an
unrelated (non-matching) record is never attributed to a matched subject. -/
theorem C5_theorem (rs : List CertRecord) (h : rs.all goodRecord = true) :
    collectHashes (renderRecords rs) false
      = (rs.filter recordMatches).map (fun r => extractSha1 r.2.1) := by
  induction rs with
  | nil => simp [renderRecords, collectHashes]
  | cons r rs ih =>
    rw [List.all_cons, Bool.and_eq_true] at h
    obtain ⟨hr, hrs⟩ := h
    obtain ⟨pre, hl, post⟩ := r
    simp only [goodRecord, Bool.and_eq_true, Bool.not_eq_true', List.all_eq_true] at hr
    obtain ⟨⟨⟨⟨h1, h2⟩, h3⟩, h4⟩, h5⟩ := hr
    have hpost : ∀ l ∈ post, isSha1Line l = false ∧ subjectMatches l = false := h5
    have hrender : renderRecords ((pre, hl, post) :: rs)
        = pre ++ hl :: (post ++ renderRecords rs) := by
      simp [renderRecords, List.append_assoc]
    rw [hrender,
      collectHashes_record pre hl post (renderRecords rs) h1 h2 h3 h4 hpost,
      ih hrs]
    by_cases hm : recordMatches (pre, hl, post) = true
    · have hm' : pre.any subjectMatches = true := hm
      rw [List.filter_cons_of_pos (by exact hm)]
      simp [hm']
    · have hm' : pre.any subjectMatches = false := by
        cases hp : pre.any subjectMatches
        · rfl
        · exact absurd hp hm
      rw [List.filter_cons_of_neg (by simp [recordMatches, hm'])]
      simp [hm']

/-- C5, witness: a two-record listing, one matching record and one
unrelated record; the scanner collects exactly the matching record's hash
and does not attribute the unrelated record's hash. -/
theorem C5_witness :
    (([(["Subject: CN=Shipping Manager CoPilot CA"], "Cert Hash(sha1): aa bb", []),
       (["Subject: CN=Other CA"], "Cert Hash(sha1): cc dd", [])] :
        List CertRecord).all goodRecord = true) ∧
    collectHashes (renderRecords
      ([(["Subject: CN=Shipping Manager CoPilot CA"], "Cert Hash(sha1): aa bb", []),
        (["Subject: CN=Other CA"], "Cert Hash(sha1): cc dd", [])] :
        List CertRecord)) false = ["aa bb"] :=
  ⟨by decide,
   (C5_theorem
      ([(["Subject: CN=Shipping Manager CoPilot CA"], "Cert Hash(sha1): aa bb", []),
        (["Subject: CN=Other CA"], "Cert Hash(sha1): cc dd", [])] :
        List CertRecord) (by decide)).trans (by decide)⟩
